import Mathlib

/-!
# Verification of the session web layer

A shallow embedding of three pieces of the repository:

* the session-list reconciler of `SessionSidebar`
  (`packages/web/src/components/session-sidebar.tsx`): filter by a search
  query, sort descending by effective timestamp, partition into active and
  inactive sessions;
* the `DELETE /api/sessions/[id]` route handler
  (`packages/web/src/app/api/sessions/[id]/route.ts`);
* the `handleSubmit` handler of the new-session form
  (`packages/web/src/app/session/new/page.tsx`).

JavaScript conventions are made explicit: a numeric field equal to `0` is
falsy, an empty string is falsy, and `JSON.stringify` omits object fields
whose value is `undefined` (modelled with `Option`).
-/

/-- The `SessionItem` interface of the sidebar. `title` is `string | null`
in the source, hence `Option`. `updatedAt` is a plain number in the source
and the code guards it with `||`, so the value `0` encodes an absent update
timestamp. -/
structure SessionItem where
  id : String
  title : Option String
  repoOwner : String
  repoName : String
  status : String
  createdAt : Nat
  updatedAt : Nat
  deriving DecidableEq

/-- Effective timestamp of a session: `session.updatedAt || session.createdAt`
in the source. JavaScript evaluates `0 || x` to `x`, so a zero `updatedAt`
falls back to `createdAt`. -/
def effTime (s : SessionItem) : Nat :=
  if s.updatedAt = 0 then s.createdAt else s.updatedAt

/-- Character-level lowercasing, the model of `String.prototype.toLowerCase`
as used on the ASCII repository and title strings. -/
def lowerStr (s : String) : String :=
  String.mk (s.data.map Char.toLower)

/-- `listStarts s q` holds when `q` occurs at the very start of `s`. -/
def listStarts : List Char → List Char → Bool
  | _, [] => true
  | [], _ :: _ => false
  | c :: s, d :: q => c == d && listStarts s q

/-- `listHasSub q s` holds when `q` occurs contiguously somewhere in `s`;
the model of `String.prototype.includes`. -/
def listHasSub (q : List Char) : List Char → Bool
  | [] => q.isEmpty
  | c :: rest => listStarts (c :: rest) q || listHasSub q rest

/-- `strIncludes s q`: the string `q` occurs as a contiguous substring of
`s`, as decided by `s.includes(q)` in the source. -/
def strIncludes (s q : String) : Bool :=
  listHasSub q.data s.data

/-- The filter predicate of the sidebar reconciler: keep every session when
the search query is empty, otherwise keep a session iff the lowercased query
occurs in the lowercased title (empty when the title is null) or in the
lowercased `owner/name` repository string. -/
def sessionMatches (searchQuery : String) (s : SessionItem) : Bool :=
  if searchQuery.isEmpty then true
  else
    let query := lowerStr searchQuery
    let title :=
      match s.title with
      | some t => lowerStr t
      | none => ""
    let repo := lowerStr (s.repoOwner ++ "/" ++ s.repoName)
    strIncludes title query || strIncludes repo query

/-- The ordering realised by the comparator `(a, b) => bTime - aTime`: an
element sorts before another iff its effective timestamp is at least as
large. -/
def sessionGE (a b : SessionItem) : Prop :=
  effTime b ≤ effTime a

instance : DecidableRel sessionGE :=
  fun a b => Nat.decLe (effTime b) (effTime a)

instance : IsTotal SessionItem sessionGE :=
  ⟨fun a b => Nat.le_total (effTime b) (effTime a)⟩

instance : IsTrans SessionItem sessionGE :=
  ⟨fun _ _ _ hab hbc => Nat.le_trans hbc hab⟩

/-- The sidebar sort: a stable sort of the filtered sessions, descending by
effective timestamp. JavaScript `Array.prototype.sort` is stable, modelled
by insertion sort with respect to the comparator ordering. -/
def sortByTimeDesc (l : List SessionItem) : List SessionItem :=
  List.insertionSort sessionGE l

/-- The partition loop of the reconciler: every sorted session whose
effective timestamp the external staleness classifier `isInactiveSession`
accepts is appended to the inactive list, the others to the active list,
preserving order. The classifier is a parameter because `@/lib/time` is not
among the sampled sources. -/
def partitionSessions (inact : Nat → Bool) :
    List SessionItem → List SessionItem × List SessionItem
  | [] => ([], [])
  | s :: rest =>
    let p := partitionSessions inact rest
    if inact (effTime s) then (p.1, s :: p.2) else (s :: p.1, p.2)

/-- Output of the reconciler: the two ordered lists rendered by the
sidebar. -/
structure ReconcileResult where
  activeSessions : List SessionItem
  inactiveSessions : List SessionItem
  deriving DecidableEq

/-- The `useMemo` body of `SessionSidebar`: filter by the search query, sort
descending by effective timestamp, then split into active and inactive
sessions with the staleness classifier `inact`. -/
def reconcile (inact : Nat → Bool) (sessions : List SessionItem)
    (searchQuery : String) : ReconcileResult :=
  let filtered := sessions.filter (sessionMatches searchQuery)
  let sorted := sortByTimeDesc filtered
  let p := partitionSessions inact sorted
  { activeSessions := p.1, inactiveSessions := p.2 }

/-- Display title of `SessionListItem`:
`session.title || owner + slash + name` in the source; both a null title and
an empty title are falsy and fall back to the repository string. -/
def displayTitle (s : SessionItem) : String :=
  match s.title with
  | none => s.repoOwner ++ "/" ++ s.repoName
  | some t => if t.isEmpty then s.repoOwner ++ "/" ++ s.repoName else t

/-- A JSON value, as far as this layer inspects one. -/
inductive JsonValue where
  | null
  | str (s : String)
  | obj (fields : List (String × JsonValue))

/-- An HTTP response produced by the route handler. `NextResponse.json`
defaults to status 200. -/
structure HttpResponse where
  status : Nat
  body : JsonValue

/-- The upstream control-plane response as the handler observes it:
`ok`, `status`, the text body, and the parsed JSON body (`none` when the
body is not JSON, in which case `response.json()` throws). -/
structure UpstreamResponse where
  ok : Bool
  status : Nat
  bodyText : String
  jsonBody : Option JsonValue

/-- Outcome of `controlPlaneFetch`: an HTTP response, or a transport
exception carrying a message. -/
inductive FetchOutcome where
  | response (r : UpstreamResponse)
  | transportError (message : String)

/-- What a single invocation of the DELETE handler did: the HTTP response
returned, whether the control-plane client was invoked at all, and the
console error lines it logged. -/
structure DeleteResult where
  response : HttpResponse
  controlPlaneInvoked : Bool
  logged : List String

/-- The JSON body `NextResponse.json` builds for an error message. -/
def errorBody (msg : String) : JsonValue :=
  JsonValue.obj [("error", JsonValue.str msg)]

/-- Truthiness of `session?.accessToken`: a token is present when the
credential exists and is a non-empty string. -/
def tokenPresent (accessToken : Option String) : Bool :=
  match accessToken with
  | none => false
  | some t => !t.isEmpty

/-- The `DELETE /api/sessions/[id]` route handler. The caller credential and
the control-plane outcome are parameters; the body follows the source line
by line: 401 before any control-plane call when the token is missing, the
upstream status with `text || generic` on a non-ok response, the upstream
JSON verbatim with status 200 on success, and a logged generic 500 when the
fetch (or the JSON parse) throws. -/
def deleteSession (accessToken : Option String) (id : String)
    (outcome : FetchOutcome) : DeleteResult :=
  if !tokenPresent accessToken then
    { response := { status := 401, body := errorBody "Unauthorized" },
      controlPlaneInvoked := false, logged := [] }
  else
    match outcome with
    | FetchOutcome.transportError e =>
      { response := { status := 500, body := errorBody "Failed to delete session" },
        controlPlaneInvoked := true,
        logged := ["Failed to delete session: " ++ e] }
    | FetchOutcome.response r =>
      if !r.ok then
        { response :=
            { status := r.status,
              body := errorBody
                (if r.bodyText.isEmpty then "Failed to delete session" else r.bodyText) },
          controlPlaneInvoked := true, logged := [] }
      else
        match r.jsonBody with
        | none =>
          { response := { status := 500, body := errorBody "Failed to delete session" },
            controlPlaneInvoked := true,
            logged := ["Failed to delete session: body is not JSON"] }
        | some data =>
          { response := { status := 200, body := data },
            controlPlaneInvoked := true, logged := [] }

/-- The initial value of the `selectedModel` state of the new-session page:
the model identifier sent when the user never changes the selection. -/
def defaultModel : String := "claude-haiku-4-5"

/-- The JSON body of `POST /api/sessions` as `handleSubmit` builds it.
`repoName` and `title` are `Option` because `JSON.stringify` omits fields
whose value is `undefined`: `title: title || undefined`, and `repoName` is
the second destructured element of `selectedRepo.split` which is
`undefined` when there is no slash. -/
structure PostBody where
  repoOwner : String
  repoName : Option String
  title : Option String
  model : String
  deriving DecidableEq

/-- Observable effect of one submission of the creation form: the local
validation message, if any, and the request body sent, if any. -/
structure SubmitResult where
  validationMessage : Option String
  request : Option PostBody
  deriving DecidableEq

/-- `String.prototype.split` on a single separator character, at the level
of character lists: splitting an empty string yields one empty group, and a
trailing separator yields a trailing empty group. -/
def jsSplitChar (sep : Char) : List Char → List (List Char)
  | [] => [[]]
  | c :: rest =>
    let r := jsSplitChar sep rest
    if c == sep then [] :: r
    else
      match r with
      | [] => [[c]]
      | g :: gs => (c :: g) :: gs

/-- `String.prototype.split` on a single separator character. -/
def jsSplit (sep : Char) (s : String) : List String :=
  (jsSplitChar sep s.data).map (fun l => String.mk l)

/-- The `handleSubmit` handler of the new-session form. An empty
`selectedRepo` is the non-selected sentinel and is falsy, so submission is
rejected locally with a validation message and no request. Otherwise
`const [owner, name] = selectedRepo.split(slash)` takes the first two
split groups and the body is posted. -/
def handleSubmit (selectedRepo title selectedModel : String) : SubmitResult :=
  if selectedRepo.isEmpty then
    { validationMessage := some "Please select a repository", request := none }
  else
    let parts := jsSplit '/' selectedRepo
    { validationMessage := none,
      request := some
        { repoOwner := (parts[0]?).getD ""
          repoName := parts[1]?
          title := if title.isEmpty then none else some title
          model := selectedModel } }

/-- The text of `s` strictly before its first slash (all of `s` when there
is no slash). Used to state what the form derives as the repository
owner. -/
def beforeFirstSlash (s : String) : String :=
  String.mk (s.data.takeWhile (fun c => c != '/'))

/-- The text of `s` strictly between its first slash and the following
slash (the rest of the string when there is no second slash), or `none`
when `s` has no slash at all. Used to state what the form derives as the
repository name. -/
def secondSlashField (s : String) : Option String :=
  if s.data.contains '/' then
    some (String.mk (((s.data.dropWhile (fun c => c != '/')).drop 1).takeWhile (fun c => c != '/')))
  else none

/-- Modelled from the spec: the external collaborator `isInactiveSession`
of the time library module is not among the sampled sources; per the spec a
session is classified inactive iff its effective timestamp is older than a
fixed staleness threshold. -/
def isInactiveSession (staleThreshold timestamp : Nat) : Bool :=
  timestamp < staleThreshold

/-- The two example sessions of the specification: a title-less session for
repository a/b updated at 100. -/
def exSessionA : SessionItem :=
  { id := "1", title := none, repoOwner := "a", repoName := "b",
    status := "working", createdAt := 0, updatedAt := 100 }

/-- The two example sessions of the specification: a session titled X for
repository c/d updated at 200. -/
def exSessionB : SessionItem :=
  { id := "2", title := some "X", repoOwner := "c", repoName := "d",
    status := "working", createdAt := 0, updatedAt := 200 }

theorem partitionSessions_eq_filters (inact : Nat → Bool) (l : List SessionItem) :
    partitionSessions inact l =
      (l.filter (fun s => !inact (effTime s)), l.filter (fun s => inact (effTime s))) := by
  induction l with
  | nil => rfl
  | cons s rest ih =>
    cases h : inact (effTime s) <;> simp [partitionSessions, ih, h]

theorem sortByTimeDesc_perm (l : List SessionItem) :
    List.Perm (sortByTimeDesc l) l :=
  List.perm_insertionSort sessionGE l

theorem sortByTimeDesc_sorted (l : List SessionItem) :
    List.Sorted sessionGE (sortByTimeDesc l) :=
  List.sorted_insertionSort sessionGE l

theorem reconcile_active_eq (inact : Nat → Bool) (S : List SessionItem) (q : String) :
    (reconcile inact S q).activeSessions =
      (sortByTimeDesc (S.filter (sessionMatches q))).filter (fun s => !inact (effTime s)) := by
  simp [reconcile, partitionSessions_eq_filters]

theorem reconcile_inactive_eq (inact : Nat → Bool) (S : List SessionItem) (q : String) :
    (reconcile inact S q).inactiveSessions =
      (sortByTimeDesc (S.filter (sessionMatches q))).filter (fun s => inact (effTime s)) := by
  simp [reconcile, partitionSessions_eq_filters]

/-- C1: for every staleness classifier, session collection S, and search
query q, the reconciler output, active list followed by inactive list, is a
permutation of exactly the sessions of S satisfying the filter predicate,
and that predicate keeps a session iff q is empty, or the lowercased q
occurs in the lowercased title, or in the lowercased owner/name repository
string. No session is gained or dropped. -/
theorem reconcile_keeps_exactly_matching (inact : Nat → Bool)
    (S : List SessionItem) (q : String) :
    List.Perm
      ((reconcile inact S q).activeSessions ++ (reconcile inact S q).inactiveSessions)
      (S.filter (sessionMatches q)) ∧
    ∀ s : SessionItem,
      sessionMatches q s =
        (q.isEmpty ||
          strIncludes (match s.title with | some t => lowerStr t | none => "") (lowerStr q) ||
          strIncludes (lowerStr (s.repoOwner ++ "/" ++ s.repoName)) (lowerStr q)) := by
  constructor
  · rw [reconcile_active_eq, reconcile_inactive_eq]
    have hfa := List.filter_append_perm (fun s => !inact (effTime s))
      (sortByTimeDesc (S.filter (sessionMatches q)))
    simp only [Bool.not_not] at hfa
    exact hfa.trans (sortByTimeDesc_perm _)
  · intro s
    by_cases hq : q.isEmpty <;> simp [sessionMatches, hq]

/-- C2: for every staleness classifier, session collection, and query, both
output lists of the reconciler are sorted in descending order of effective
timestamp; each list is the order-preserving restriction of the sorted
filtered list to the sessions whose effective timestamp the classifier maps
to false respectively true, so membership in a partition is a pure function
of the effective timestamp; and the effective timestamp of every session is
updatedAt when present (nonzero) and createdAt otherwise. -/
theorem reconcile_sorted_partition (inact : Nat → Bool)
    (S : List SessionItem) (q : String) :
    List.Sorted sessionGE (reconcile inact S q).activeSessions ∧
    List.Sorted sessionGE (reconcile inact S q).inactiveSessions ∧
    (reconcile inact S q).activeSessions =
      (sortByTimeDesc (S.filter (sessionMatches q))).filter (fun s => !inact (effTime s)) ∧
    (reconcile inact S q).inactiveSessions =
      (sortByTimeDesc (S.filter (sessionMatches q))).filter (fun s => inact (effTime s)) ∧
    ∀ s : SessionItem,
      effTime s = if s.updatedAt ≠ 0 then s.updatedAt else s.createdAt := by
  refine ⟨?_, ?_, reconcile_active_eq inact S q, reconcile_inactive_eq inact S q, ?_⟩
  · rw [reconcile_active_eq]
    exact List.Pairwise.filter _ (sortByTimeDesc_sorted _)
  · rw [reconcile_inactive_eq]
    exact List.Pairwise.filter _ (sortByTimeDesc_sorted _)
  · intro s
    by_cases h : s.updatedAt = 0 <;> simp [effTime, h]

/-- C8: on the two example sessions, one titleless for repository a/b with
timestamp 100 and one titled X for repository c/d with timestamp 200, and
the empty query, whenever the staleness classifier puts both timestamps in
the active range, the active list is the X session followed by the a/b
session, descending by timestamp, and the display title of the titleless
session is a/b. -/
theorem reconcile_example (inact : Nat → Bool)
    (h100 : inact 100 = false) (h200 : inact 200 = false) :
    (reconcile inact [exSessionA, exSessionB] "").activeSessions =
      [exSessionB, exSessionA] ∧
    displayTitle exSessionA = "a/b" := by
  refine ⟨?_, rfl⟩
  have hsort : sortByTimeDesc
      (List.filter (sessionMatches "") [exSessionA, exSessionB]) =
      [exSessionB, exSessionA] := by rfl
  have hA : effTime exSessionA = 100 := rfl
  have hB : effTime exSessionB = 200 := rfl
  rw [reconcile_active_eq, hsort]
  simp [hA, hB, h100, h200]

/-- Witness for C8: with the spec-modelled staleness classifier at
threshold 50, both timestamps are active and both conclusions evaluate on
the example collection. -/
theorem reconcile_example_witness :
    (reconcile (isInactiveSession 50) [exSessionA, exSessionB] "").activeSessions =
      [exSessionB, exSessionA] ∧
    displayTitle exSessionA = "a/b" :=
  reconcile_example (isInactiveSession 50) rfl rfl

/-- C3: with no valid credential, for every session id and every possible
control-plane outcome, the DELETE handler returns 401 with the Unauthorized
error body, the control-plane client is never invoked, and nothing is
logged. -/
theorem delete_unauthorized (accessToken : Option String)
    (h : tokenPresent accessToken = false) (id : String) (outcome : FetchOutcome) :
    deleteSession accessToken id outcome =
      { response := { status := 401, body := errorBody "Unauthorized" },
        controlPlaneInvoked := false, logged := [] } := by
  simp [deleteSession, h]

/-- Witness for C3: a request with no credential at all. -/
theorem delete_unauthorized_witness :
    deleteSession none "abc" (FetchOutcome.transportError "boom") =
      { response := { status := 401, body := errorBody "Unauthorized" },
        controlPlaneInvoked := false, logged := [] } :=
  delete_unauthorized none rfl "abc" (FetchOutcome.transportError "boom")

/-- C6: for every authenticated request whose upstream response is non-ok,
the handler relays the upstream status code with an error body holding the
upstream body text, replaced by the generic message exactly when the text
is empty. -/
theorem delete_upstream_error (accessToken : Option String)
    (h : tokenPresent accessToken = true) (id : String)
    (r : UpstreamResponse) (hok : r.ok = false) :
    deleteSession accessToken id (FetchOutcome.response r) =
      { response :=
          { status := r.status,
            body := errorBody
              (if r.bodyText.isEmpty then "Failed to delete session" else r.bodyText) },
        controlPlaneInvoked := true, logged := [] } := by
  simp [deleteSession, h, hok]

/-- Witness for C6: an upstream 404 with body text not found yields a 404
with the error body not found. -/
theorem delete_upstream_error_witness :
    deleteSession (some "tok") "abc"
        (FetchOutcome.response
          { ok := false, status := 404, bodyText := "not found", jsonBody := none }) =
      { response := { status := 404, body := errorBody "not found" },
        controlPlaneInvoked := true, logged := [] } :=
  delete_upstream_error (some "tok") rfl "abc"
    { ok := false, status := 404, bodyText := "not found", jsonBody := none } rfl

/-- C9: for every authenticated request whose control-plane call raises a
transport exception, the handler logs the failure together with the
exception message and returns 500 with the fixed generic error body; the
response does not depend on the underlying cause. -/
theorem delete_transport_error (accessToken : Option String)
    (h : tokenPresent accessToken = true) (id e : String) :
    deleteSession accessToken id (FetchOutcome.transportError e) =
      { response := { status := 500, body := errorBody "Failed to delete session" },
        controlPlaneInvoked := true,
        logged := ["Failed to delete session: " ++ e] } := by
  simp [deleteSession, h]

/-- Witness for C9: a concrete transport failure. -/
theorem delete_transport_error_witness :
    deleteSession (some "tok") "abc" (FetchOutcome.transportError "ECONNRESET") =
      { response := { status := 500, body := errorBody "Failed to delete session" },
        controlPlaneInvoked := true,
        logged := ["Failed to delete session: ECONNRESET"] } :=
  delete_transport_error (some "tok") rfl "abc" "ECONNRESET"

/-- C4: submitting the creation form with no repository selected, for every
title and model, sets the validation message and sends no request. -/
theorem submit_requires_repo (title model : String) :
    handleSubmit "" title model =
      { validationMessage := some "Please select a repository", request := none } :=
  rfl

/-- C5: for every session, an absent title is displayed as the owner/name
repository string, and the displayed title is never the empty string. -/
theorem display_title_fallback (s : SessionItem) :
    (s.title = none → displayTitle s = s.repoOwner ++ "/" ++ s.repoName) ∧
    displayTitle s ≠ "" := by
  have hslash : s.repoOwner ++ "/" ++ s.repoName ≠ "" := by
    intro hcontra
    have hlen := congrArg String.length hcontra
    simp [String.length_append] at hlen
    exact absurd hlen.1.2 (by decide)
  refine ⟨fun h => by simp [displayTitle, h], ?_⟩
  cases ht : s.title with
  | none => simpa [displayTitle, ht] using hslash
  | some t =>
    by_cases hte : t = ""
    · subst hte
      have hemp : ("" : String).isEmpty = true := rfl
      simpa [displayTitle, ht, hemp] using hslash
    · have hb : t.isEmpty = false := by
        cases h2 : t.isEmpty
        · rfl
        · exact absurd ((String.isEmpty_iff t).mp h2) hte
      simpa [displayTitle, ht, hb] using hte

/-- Witness for C5: a titleless session for repository a/b. -/
theorem display_title_fallback_witness :
    displayTitle exSessionA = "a/b" ∧ displayTitle exSessionA ≠ "" :=
  ⟨(display_title_fallback exSessionA).1 rfl, (display_title_fallback exSessionA).2⟩

theorem jsSplitChar_fields (sep : Char) (l : List Char) :
    (jsSplitChar sep l)[0]? = some (l.takeWhile (fun c => c != sep)) ∧
    (jsSplitChar sep l)[1]? =
      (if l.contains sep then
        some (((l.dropWhile (fun c => c != sep)).drop 1).takeWhile (fun c => c != sep))
      else none) := by
  induction l with
  | nil => simp [jsSplitChar]
  | cons c rest ih =>
    cases hc : c == sep with
    | true =>
      have hce : c = sep := by simpa using hc
      subst hce
      constructor
      · simp [jsSplitChar]
      · simp [jsSplitChar, ih.1]
    | false =>
      have hne : ¬(c = sep) := by simpa using hc
      cases hsplit : jsSplitChar sep rest with
      | nil =>
        have h0 := ih.1
        rw [hsplit] at h0
        simp at h0
      | cons g gs =>
        have h0 := ih.1
        have h1 := ih.2
        rw [hsplit] at h0 h1
        simp only [List.getElem?_cons_zero, Option.some_inj] at h0
        simp only [List.getElem?_cons_succ, List.getElem?_cons_zero] at h1
        constructor
        · simp [jsSplitChar, hc, hsplit, h0, List.takeWhile_cons, hne]
        · simp [jsSplitChar, hc, hsplit, h1, List.dropWhile_cons, hne,
            List.contains_cons, Ne.symm hne]

/-- C7 as stated is false: for the selected value a/b/c the posted repoName
is the second slash-separated segment b, not the whole text b/c after the
first slash. -/
theorem submit_split_counterexample :
    ((handleSubmit "a/b/c" "" defaultModel).request.map PostBody.repoName) =
      some (some "b") ∧
    ((handleSubmit "a/b/c" "" defaultModel).request.map PostBody.repoName) ≠
      some (some "b/c") := by
  constructor
  · rfl
  · intro hcontra
    rw [(by rfl : ((handleSubmit "a/b/c" "" defaultModel).request.map PostBody.repoName) =
      some (some "b"))] at hcontra
    simp at hcontra

/-- C7 amended: for every non-empty selected value, the form posts a body
whose repoOwner is the text before the first slash, whose repoName is the
second slash-separated segment (the text between the first slash and the
next one, or the rest when there is no second slash; absent when there is
no slash), whose title is the submitted title or absent when empty, and
whose model is the selected model identifier, which starts out as the fixed
default claude-haiku-4-5; no validation message is raised. -/
theorem submit_posts_body (selectedRepo : String)
    (h : selectedRepo.isEmpty = false) (title model : String) :
    handleSubmit selectedRepo title model =
      { validationMessage := none,
        request := some
          { repoOwner := beforeFirstSlash selectedRepo,
            repoName := secondSlashField selectedRepo,
            title := if title.isEmpty then none else some title,
            model := model } } ∧
    defaultModel = "claude-haiku-4-5" := by
  refine ⟨?_, rfl⟩
  have hf := jsSplitChar_fields '/' selectedRepo.data
  have h0 : ((jsSplitChar '/' selectedRepo.data).map (fun l => String.mk l))[0]? =
      some (beforeFirstSlash selectedRepo) := by
    rw [List.getElem?_map, hf.1]
    rfl
  have h1 : ((jsSplitChar '/' selectedRepo.data).map (fun l => String.mk l))[1]? =
      secondSlashField selectedRepo := by
    rw [List.getElem?_map, hf.2, secondSlashField]
    by_cases hc : selectedRepo.data.contains '/' <;> simp [hc]
  simp [handleSubmit, h, jsSplit, h0, h1]

/-- Witness for C7 amended: the selected value a/b with title t posts owner
a, name b, title t, and the default model. -/
theorem submit_posts_body_witness :
    handleSubmit "a/b" "t" defaultModel =
      { validationMessage := none,
        request := some
          { repoOwner := "a", repoName := some "b",
            title := some "t", model := defaultModel } } ∧
    defaultModel = "claude-haiku-4-5" := by
  have h := submit_posts_body "a/b" rfl "t" defaultModel
  exact ⟨h.1.trans (by decide), h.2⟩

/-- C10: an empty-string title is treated like an absent title at the
public interface: the sidebar displays the owner/name repository string for
a session whose title is the empty string, and a form submission with an
empty title field posts a body with no title field at all. -/
theorem empty_title_like_absent :
    (∀ s : SessionItem, s.title = some "" →
      displayTitle s = s.repoOwner ++ "/" ++ s.repoName) ∧
    (∀ selectedRepo model : String, selectedRepo.isEmpty = false →
      ∃ body : PostBody,
        (handleSubmit selectedRepo "" model).request = some body ∧
        body.title = none) := by
  constructor
  · intro s hs
    have hemp : ("" : String).isEmpty = true := rfl
    simp [displayTitle, hs, hemp]
  · intro selectedRepo model h
    refine ⟨{ repoOwner := ((jsSplit '/' selectedRepo)[0]?).getD "",
              repoName := (jsSplit '/' selectedRepo)[1]?,
              title := none, model := model }, ?_, rfl⟩
    have hemp : ("" : String).isEmpty = true := rfl
    simp [handleSubmit, h, hemp]

/-- Witness for C10: the example titleless display and a submission of a/b
with an empty title. -/
theorem empty_title_like_absent_witness :
    displayTitle
      { id := "1", title := some "", repoOwner := "a", repoName := "b",
        status := "working", createdAt := 5, updatedAt := 0 } = "a/b" ∧
    ∃ body : PostBody,
      (handleSubmit "a/b" "" defaultModel).request = some body ∧
      body.title = none :=
  ⟨empty_title_like_absent.1 _ rfl, empty_title_like_absent.2 "a/b" defaultModel rfl⟩
